import Mathlib

/-!
Verification of the ClearCare compliance validation core.

This file gives a shallow embedding of the validation core of the
clearcare-compliance repository and proves properties of it:

* `app/validator.py`   — the rule evaluator (`run_rules` and the per-kind
  check functions) over a Polars dataframe;
* `app/cms_csv.py`     — the structure sniffer `_try_parse_preamble` and the
  layout classifier `sniff_layout_from_headers`;
* `clearcare_compliance/csv_validator.py` — the structure sniffer
  `find_preamble_and_header_row`;
* `clearcare_compliance/detectors.py`     — the layout classifier
  `guess_csv_layout`.

Modelling conventions:

* A dataframe cell is `Cell`: `null`, a numeric value `num n` (a cell whose
  text casts to a number under `cast(Float64, strict=False)`, or parses as a
  timestamp for the date check), or `str s` (a cell whose text does not cast;
  the cast yields null).  Numbers are modelled as `Int`.
* Polars boolean expressions over columns are modelled as row predicates
  `List Cell → Bool`; `df.filter(cond).height` is `(df.rows.filter cond).length`.
  For the checks that build a derived frame (`with_columns` adding
  `{col}_numeric`, `date_parsed`, `cash_numeric`/`gross_numeric`,
  `{col}_upper`), the counting filter runs against that derived frame, whose
  alias cells are functions of the original row — so the predicate computes
  the same value from the original row.  `get_failing_rows`, however,
  receives the original `df` together with the expression, so it is modelled
  with the expression's referenced column names (`refs`): when a referenced
  column is absent from `df` the polars filter raises, the `except` catches,
  and the stored sample is the one-element error placeholder
  (`Sample.errorPlaceholder`) instead of rows.
* The YAML rule registry is modelled as the record `Rules`; a regex pattern is
  modelled as the decidable string predicate its compiled, anchored form
  denotes.  `load_rules_registry` can fail, so `run_rules` receives an
  `Except String Rules` (the Python code catches the load exception and
  returns the error-shaped report).
* The preamble "required labels" vocabulary is loaded by the source from a
  packaged YAML file that is not part of the source tree; both sniffers
  receive it as the explicit parameter `wanted`, exactly as
  `_try_parse_preamble(lines, spec)` receives its `spec` argument.
* A CSV input is a list of physical lines (terminators stripped); one line is
  split into cells by `csvCells`, which mirrors Python's `csv.reader` on a
  single line (an empty line yields no cells, quoted fields support doubled
  quotes).
-/

namespace ClearCare

/-! ## Cells, dataframes, check results -/

inductive Cell where
  | null : Cell
  | str : String → Cell
  | num : Int → Cell
deriving DecidableEq

/-- Polars dtypes that appear in `check_column_types`. -/
inductive DType where
  | utf8 | float64 | float32 | int64 | int32 | date | datetime | boolean
deriving DecidableEq

/-- Declared column types of the registry's `column_types` section
(`type_mapping` in `check_column_types`). -/
inductive ColType where
  | cstring | cfloat | cint | cdate | cdatetime | cbool
deriving DecidableEq

structure DataFrame where
  cols : List String
  dtypes : List DType
  rows : List (List Cell)
deriving DecidableEq

inductive Status where
  | pass | fail | error
deriving DecidableEq

/-- The `failing_rows` value stored in a check's details.  `get_failing_rows`
either returns the (capped) list of offending rows, or — when the polars
filter raises inside its `try` — the one-element placeholder list
`[{"error": "Failed to extract failing rows: ..."}]`. -/
inductive Sample where
  | rows : List (List Cell) → Sample
  | errorPlaceholder : Sample
deriving DecidableEq

/-- Length of the stored `failing_rows` list: the number of sampled rows, or
1 for the single error-placeholder dict. -/
def sampleLen : Sample → Nat
  | Sample.rows rs => rs.length
  | Sample.errorPlaceholder => 1

/-- A check result: rule id, status, the violation count recorded in the
result's details, and the stored failing-rows sample. -/
structure CheckResult where
  rule : String
  status : Status
  count : Nat
  failingRows : Sample
deriving DecidableEq

def colIdx (df : DataFrame) (c : String) : Option Nat :=
  df.cols.findIdx? (fun x => x = c)

def cellAt (df : DataFrame) (row : List Cell) (c : String) : Cell :=
  match colIdx df c with
  | some i => row.getD i Cell.null
  | none => Cell.null

def dtypeAt (df : DataFrame) (c : String) : DType :=
  match colIdx df c with
  | some i => df.dtypes.getD i DType.utf8
  | none => DType.utf8

/-- `pl.col(c).cast(pl.Float64, strict=False)`: numeric cells cast, null and
non-numeric text yield null. -/
def castNum : Cell → Option Int
  | Cell.num n => some n
  | _ => none

def isNullCell : Cell → Bool
  | Cell.null => true
  | _ => false

def isStrCell : Cell → Bool
  | Cell.str _ => true
  | _ => false

/-- Text content of a cell, for enum/pattern checks on string data. -/
def cellText : Cell → String
  | Cell.null => ""
  | Cell.str s => s
  | Cell.num n => toString n

/-! ## String primitives

Python's `str.lower`, `str.upper`, `str.strip` and single-character
`str.replace` are modelled by structurally recursive functions over the
character list of the string (the core library's iterator-based versions are
extensionally the same on ASCII data but are opaque to kernel reduction). -/

def lowerStr (s : String) : String := String.mk (s.data.map Char.toLower)

def upperStr (s : String) : String := String.mk (s.data.map Char.toUpper)

def trimChars (cs : List Char) : List Char :=
  ((cs.dropWhile Char.isWhitespace).reverse.dropWhile Char.isWhitespace).reverse

/-- `str.strip()`. -/
def trimStr (s : String) : String := String.mk (trimChars s.data)

/-- `str.replace(a, b)` for one-character `a` and `b` (the only form the
source uses). -/
def replaceChar (s : String) (a b : Char) : String :=
  String.mk (s.data.map (fun c => if c = a then b else c))

/-- Python `c in s` for a single character. -/
def containsChar (s : String) (c : Char) : Bool := s.data.contains c

/-! ## CSV line splitting (`_csv_cells` = `next(csv.reader([line]))`) -/

/-- State machine for splitting one CSV line.  `st = 0`: in an unquoted
field; `st = 1`: inside quotes; `st = 2`: just saw a quote while inside
quotes (a second quote is a literal quote, anything else closes the quoted
section).  `cur` is the current field reversed, `acc` the finished fields
reversed. -/
def csvCellsGo (chars : List Char) (st : Nat) (cur : List Char)
    (acc : List (List Char)) : List (List Char) :=
  match chars with
  | [] => (cur.reverse :: acc).reverse
  | c :: rest =>
    match st with
    | 0 =>
      if c = ',' then csvCellsGo rest 0 [] (cur.reverse :: acc)
      else if c = '"' ∧ cur = [] then csvCellsGo rest 1 cur acc
      else csvCellsGo rest 0 (c :: cur) acc
    | 1 =>
      if c = '"' then csvCellsGo rest 2 cur acc
      else csvCellsGo rest 1 (c :: cur) acc
    | _ =>
      if c = '"' then csvCellsGo rest 1 ('"' :: cur) acc
      else if c = ',' then csvCellsGo rest 0 [] (cur.reverse :: acc)
      else csvCellsGo rest 0 (c :: cur) acc

/-- Split one CSV line into cells.  An empty line yields `[]`, as
`csv.reader` yields an empty row for a blank line. -/
def csvCells (line : String) : List String :=
  if line = "" then []
  else (csvCellsGo line.data 0 [] []).map (fun cs => String.mk cs)

/-! ## Layout classifiers -/

/-- Does `w` occur in `h` as a contiguous sublist? -/
def listContainsSub : List Char → List Char → Bool
  | [], w => w.isEmpty
  | c :: t, w => w.isPrefixOf (c :: t) || listContainsSub t w

/-- Substring test: does `h` contain `w` as a substring (Python `w in h`)? -/
def containsTok (h w : String) : Bool :=
  listContainsSub h.data w.data

inductive CsvLayout where
  | csv_tall | csv_wide
deriving DecidableEq

def payerPlanWords : List String := ["payer", "plan", "insurance", "hmo", "ppo"]

/-- Is `h` a composite payer-plan pipe header: it contains `|` and one of the
payer/plan indicative tokens (the comprehension building `payer_plan_pipes`)? -/
def isPayerPlanPipe (h : String) : Bool :=
  containsChar h '|' && payerPlanWords.any (fun w => containsTok h w)

/-- `guess_csv_layout` from `clearcare_compliance/detectors.py`. -/
def guess_csv_layout (headers_lower : List String) : CsvLayout :=
  let payer_plan_pipes := headers_lower.filter isPayerPlanPipe
  if payer_plan_pipes.length ≥ 2 then CsvLayout.csv_wide
  else
    let base_tall := ["billing_code_type", "billing_code", "description",
      "standard_charge", "payer", "plan", "payer_name", "plan_name"]
    let has_tall_indicators := base_tall.any (fun b => decide (b ∈ headers_lower))
    if "payer_name" ∈ headers_lower ∧ "plan_name" ∈ headers_lower then
      CsvLayout.csv_tall
    else if has_tall_indicators ∧ payer_plan_pipes.length ≤ 1 then
      CsvLayout.csv_tall
    else if headers_lower.length > 25 then CsvLayout.csv_wide
    else CsvLayout.csv_tall

/-- `sniff_layout_from_headers` from `app/cms_csv.py`: wide on any pipe,
else wide when the base columns are present and there are more than 25
columns, else tall. -/
def sniff_layout_from_headers (headers : List String) : String :=
  if headers.any (fun h => containsChar h '|') then "wide"
  else
    let base := ["billing_code_type", "billing_code", "description"]
    if base.all (fun b => decide (b ∈ headers)) ∧ headers.length > 25 then "wide"
    else "tall"

/-! ## Structure sniffers

Both sniffers scan candidate indices `i` over
`range(min(max_scan, len(lines) - 2))`, parse lines `i`, `i+1`, `i+2` as
CSV rows, and accept with one of two heuristics; on acceptance line `i+2` is
the header row.  The two acceptance tests are shared verbatim between
`app/cms_csv.py::_try_parse_preamble` and
`clearcare_compliance/csv_validator.py::find_preamble_and_header_row`; the
two functions differ in that the latter first drops blank lines and returns
the header cells, and in their scan-window defaults (20 vs 30). -/

/-- Cells of a line, each stripped and lower-cased (`c.strip().lower()`). -/
def lowerTrimCells (s : String) : List String :=
  (csvCells s).map (fun c => lowerStr (trimStr c))

/-- Cells of a line, each stripped (`c.strip()`). -/
def trimCells (s : String) : List String :=
  (csvCells s).map (fun c => trimStr c)

/-- Number of required preamble labels found among the row's cells
(`sum(1 for k in wanted if k in c1)` where `wanted` is a lower-cased set). -/
def recognizedHits (wanted : List String) (cells : List String) : Nat :=
  (((wanted.map lowerStr).eraseDups).filter
    (fun k => decide (k ∈ cells))).length

def hospitalIndicators : List String :=
  ["hospital", "name", "location", "address", "license", "updated", "version"]

def dataIndicators : List String :=
  ["billing_code", "description", "charge", "price", "payer", "code_type"]

/-- Number of cells containing at least one of the indicator tokens as a
substring. -/
def indicatorHits (indicators : List String) (cells : List String) : Nat :=
  (cells.filter (fun cell => indicators.any (fun ind => containsTok cell ind))).length

/-- Candidate start indices of the scan: `range(min(max_scan, len(lines)-2))`. -/
def candidateRange (lines : List String) (maxScan : Nat) : List Nat :=
  List.range (min maxScan (lines.length - 2))

/-- First acceptance heuristic (CMS domain preamble): rows `i`, `i+1`, `i+2`
parse to non-empty cell lists, row `i` holds at least two recognized required
labels, and rows `i` and `i+1` have equally many cells. -/
def cmsAccept (wanted : List String) (lines : List String) (i : Nat) : Bool :=
  match lines.get? i, lines.get? (i+1), lines.get? (i+2) with
  | some r1, some r2, some r3 =>
    let c1 := lowerTrimCells r1
    let c2 := trimCells r2
    let c3 := lowerTrimCells r3
    !c1.isEmpty && !c2.isEmpty && !c3.isEmpty &&
      decide (recognizedHits wanted c1 ≥ 2) && decide (c1.length = c2.length)
  | _, _, _ => false

/-- Second acceptance heuristic (hospital metadata): at least two row-`i`
cells contain a hospital-metadata token, at least two row-`i+2` cells contain
a data-header token, and rows `i` and `i+1` have equally many cells. -/
def hospAccept (lines : List String) (i : Nat) : Bool :=
  match lines.get? i, lines.get? (i+1), lines.get? (i+2) with
  | some r1, some r2, some r3 =>
    let c1 := lowerTrimCells r1
    let c2 := trimCells r2
    let c3 := lowerTrimCells r3
    !c1.isEmpty && !c2.isEmpty && !c3.isEmpty &&
      decide (indicatorHits hospitalIndicators c1 ≥ 2) &&
      decide (indicatorHits dataIndicators c3 ≥ 2) &&
      decide (c1.length = c2.length)
  | _, _, _ => false

/-- Preamble metadata: pair label row and value row cells, keeping pairs
whose label and value are both non-empty (`if k and v: md[k] = v`). -/
def buildMeta (c1 c2 : List String) : List (String × String) :=
  (c1.zip c2).filter (fun kv => (kv.1 != "") && (kv.2 != ""))

/-- Does a parsed line contain at least one non-blank cell
(`any(x.strip() for x in _csv_cells(ln))`)? -/
def hasDataCell (ln : String) : Bool :=
  (trimCells ln).any (fun c => c != "")

/-- `_try_parse_preamble` from `app/cms_csv.py` (the `spec`'s required-label
vocabulary is the `wanted` parameter; the source's default scan window is
`maxScan = 20`).  Returns `(header_row, metadata, row1 cells, row2 cells)`. -/
def try_parse_preamble (lines : List String) (wanted : List String)
    (maxScan : Nat) : Nat × List (String × String) × List String × List String :=
  match (candidateRange lines maxScan).find? (cmsAccept wanted lines) with
  | some i =>
    (i + 2, buildMeta (lowerTrimCells (lines.getD i "")) (trimCells (lines.getD (i+1) "")),
      lowerTrimCells (lines.getD i ""), trimCells (lines.getD (i+1) ""))
  | none =>
    match (candidateRange lines maxScan).find? (hospAccept lines) with
    | some i =>
      (i + 2, buildMeta (lowerTrimCells (lines.getD i "")) (trimCells (lines.getD (i+1) "")),
        lowerTrimCells (lines.getD i ""), trimCells (lines.getD (i+1) ""))
    | none =>
      match lines.findIdx? hasDataCell with
      | some j => (j, [], [], [])
      | none => (0, [], [], [])

/-- `find_preamble_and_header_row` from
`clearcare_compliance/csv_validator.py` (`PREAMBLE["required_labels"]` is the
`wanted` parameter; the source's default scan window is `maxScan = 30`).
Blank lines are dropped first; returns
`(header_row_index, preamble, headers_lower)`. -/
def find_preamble_and_header_row (rawLines : List String)
    (wanted : List String) (maxScan : Nat) :
    Nat × List (String × String) × List String :=
  let lines := rawLines.filter (fun ln => trimStr ln != "")
  match (candidateRange lines maxScan).find? (cmsAccept wanted lines) with
  | some i =>
    (i + 2, buildMeta (lowerTrimCells (lines.getD i "")) (trimCells (lines.getD (i+1) "")),
      lowerTrimCells (lines.getD (i+2) ""))
  | none =>
    match (candidateRange lines maxScan).find? (hospAccept lines) with
    | some i =>
      (i + 2, buildMeta (lowerTrimCells (lines.getD i "")) (trimCells (lines.getD (i+1) "")),
        lowerTrimCells (lines.getD (i+2) ""))
    | none =>
      match lines.findIdx? hasDataCell with
      | some j => (j, [], (trimCells (lines.getD j "")).map lowerStr)
      | none => (0, [], [])

/-! ## Rule registry (`rules_registry.yaml` parsed by `load_rules_registry`) -/

structure RangeSpec where
  col : String
  lo : Int
  hi : Int

structure DupSpec where
  columns : List String

structure DateRule where
  column : String
  max_days : Int

structure CashRule where
  enabled : Bool
  cash_column : String
  gross_column : String

structure EnumSpec where
  col : String
  allowed : List String
  case_sensitive : Bool

/-- A `pattern_match` entry; the compiled anchored regex
`^pattern$` is modelled as the decidable full-string predicate `matches`. -/
structure PatternSpec where
  col : String
  accepts : String → Bool

structure Rules where
  version : String
  cms_required_headers : List String
  simple_required_columns : List String
  column_types : List (String × ColType)
  value_ranges : List RangeSpec
  non_negative : List String
  duplicates_by : List DupSpec
  date_within_days : Option DateRule
  cash_leq_gross : Option CashRule
  enum_values : List EnumSpec
  pattern_match : List PatternSpec
  not_null : List String
  max_failing_rows_per_rule : Option Nat

/-! ## Rule evaluator (`app/validator.py`) -/

/-- `get_failing_rows`: inside a `try`, `df.filter(condition).head(max_rows)`
is materialized; any exception is caught and the one-element error
placeholder is returned instead.  A polars expression is modelled by the
column names it references (`refs` — the literal names appearing in the
`pl.col(...)` calls that build `condition`) together with its value on a row
(`cond`).  `df.filter` raises `ColumnNotFoundError` exactly when the
expression references a column absent from `df` — which happens for every
check whose condition is built over a derived alias column
(`{col}_numeric`, `date_parsed`, `cash_numeric`/`gross_numeric`,
`{col}_upper`) that exists only in the check's derived frame, not in the
`df` this function receives. -/
def get_failing_rows (df : DataFrame) (refs : List String)
    (cond : List Cell → Bool) (maxRows : Nat) : Sample :=
  if refs.all (fun c => decide (c ∈ df.cols)) then
    Sample.rows ((df.rows.filter cond).take maxRows)
  else Sample.errorPlaceholder

/-- Header normalization in `check_profile_headers`:
`h.lower().strip().replace(" ", "_").replace("-", "_")`. -/
def normalizeHeader (h : String) : String :=
  replaceChar (replaceChar (trimStr (lowerStr h)) ' ' '_') '-' '_'

inductive Profile where
  | cms_csv | simple_csv
deriving DecidableEq

/-- `check_profile_headers`: for the cms_csv profile, normalized
required-header set minus normalized actual-header set must be empty; for the
simple_csv profile, every required column must be an actual column. -/
def check_profile_headers (actualCols : List String) (profile : Profile)
    (rules : Rules) : CheckResult :=
  match profile with
  | Profile.cms_csv =>
    let actual := actualCols.map normalizeHeader
    let requiredN := (rules.cms_required_headers.map normalizeHeader).eraseDups
    let missing := requiredN.filter (fun h => decide (h ∉ actual))
    if missing ≠ [] then
      { rule := "required_headers", status := Status.fail,
        count := missing.length, failingRows := Sample.rows [] }
    else
      { rule := "required_headers", status := Status.pass,
        count := 0, failingRows := Sample.rows [] }
  | Profile.simple_csv =>
    let missing := rules.simple_required_columns.filter
      (fun c => decide (c ∉ actualCols))
    if missing ≠ [] then
      { rule := "required_columns", status := Status.fail,
        count := missing.length, failingRows := Sample.rows [] }
    else
      { rule := "required_columns", status := Status.pass,
        count := 0, failingRows := Sample.rows [] }

/-- The polars type name declared for a `column_types` entry
(`type_mapping` in `check_column_types`). -/
def dtypeFor : ColType → DType
  | ColType.cstring => DType.utf8
  | ColType.cfloat => DType.float64
  | ColType.cint => DType.int64
  | ColType.cdate => DType.date
  | ColType.cdatetime => DType.datetime
  | ColType.cbool => DType.boolean

/-- Type compatibility in `check_column_types`: float accepts the numeric
widenings, string requires Utf8, otherwise exact dtype equality. -/
def typeMatch (expected : ColType) (actual : DType) : Bool :=
  if expected = ColType.cfloat then
    decide (actual ∈ [DType.float64, DType.float32, DType.int64, DType.int32])
  else if expected = ColType.cstring then decide (actual = DType.utf8)
  else decide (dtypeFor expected = actual)

/-- `check_column_types`: skip absent columns; otherwise pass or fail on
`typeMatch`. -/
def check_column_types (df : DataFrame) (rules : Rules) (_maxRows : Nat) :
    List CheckResult :=
  rules.column_types.filterMap (fun ct =>
    if ct.1 ∈ df.cols then
      if typeMatch ct.2 (dtypeAt df ct.1) then
        some { rule := "column_types." ++ ct.1, status := Status.pass,
               count := 0, failingRows := Sample.rows [] }
      else
        some { rule := "column_types." ++ ct.1, status := Status.fail,
               count := 0, failingRows := Sample.rows [] }
    else none)

/-- Violation condition of `check_value_ranges`: the cast value is non-null
and lies outside `[lo, hi]`. -/
def valueRangeCondition (df : DataFrame) (spec : RangeSpec)
    (row : List Cell) : Bool :=
  match castNum (cellAt df row spec.col) with
  | some v => decide (v < spec.lo) || decide (v > spec.hi)
  | none => false

/-- `check_value_ranges`: skip absent columns; count rows whose cast value is
outside the range, ignoring rows that fail to cast. -/
def check_value_ranges (df : DataFrame) (rules : Rules) (maxRows : Nat) :
    List CheckResult :=
  rules.value_ranges.filterMap (fun spec =>
    if spec.col ∈ df.cols then
      let cond := valueRangeCondition df spec
      let n := (df.rows.filter cond).length
      if n > 0 then
        some { rule := "value_ranges." ++ spec.col, status := Status.fail,
               count := n,
               failingRows := get_failing_rows df [spec.col ++ "_numeric"] cond maxRows }
      else
        some { rule := "value_ranges." ++ spec.col, status := Status.pass,
               count := 0, failingRows := Sample.rows [] }
    else none)

/-- Violation condition of `check_non_negative`: the cast value is non-null
and negative. -/
def nonNegativeCondition (df : DataFrame) (col : String)
    (row : List Cell) : Bool :=
  match castNum (cellAt df row col) with
  | some v => decide (v < 0)
  | none => false

/-- `check_non_negative`: skip absent columns; count rows with a negative
cast value, ignoring rows that fail to cast. -/
def check_non_negative (df : DataFrame) (rules : Rules) (maxRows : Nat) :
    List CheckResult :=
  rules.non_negative.filterMap (fun col =>
    if col ∈ df.cols then
      let cond := nonNegativeCondition df col
      let n := (df.rows.filter cond).length
      if n > 0 then
        some { rule := "non_negative." ++ col, status := Status.fail,
               count := n,
               failingRows := get_failing_rows df [col ++ "_numeric"] cond maxRows }
      else
        some { rule := "non_negative." ++ col, status := Status.pass,
               count := 0, failingRows := Sample.rows [] }
    else none)

/-- `'+'.join(columns)` used in the duplicate-check rule id. -/
def joinPlus : List String → String
  | [] => ""
  | [c] => c
  | c :: rest => c ++ "+" ++ joinPlus rest

/-- The key tuple of a row for a duplicate check. -/
def dupKey (df : DataFrame) (columns : List String) (row : List Cell) :
    List Cell :=
  columns.map (fun c => cellAt df row c)

/-- `check_duplicates_by`: a spec whose columns are not all present yields a
CheckResult with status `error` (unlike every other rule kind); otherwise the
distinct key tuples occurring more than once are the violations. -/
def check_duplicates_by (df : DataFrame) (rules : Rules) (maxRows : Nat) :
    List CheckResult :=
  rules.duplicates_by.map (fun spec =>
    let missing := spec.columns.filter (fun c => decide (c ∉ df.cols))
    if missing ≠ [] then
      { rule := "duplicates_by." ++ joinPlus spec.columns,
        status := Status.error, count := 0, failingRows := Sample.rows [] }
    else
      let keys := df.rows.map (dupKey df spec.columns)
      let dups := keys.eraseDups.filter
        (fun k => (keys.filter (fun k2 => k2 = k)).length > 1)
      if dups.length > 0 then
        { rule := "duplicates_by." ++ joinPlus spec.columns,
          status := Status.fail, count := dups.length,
          failingRows := Sample.rows (dups.take maxRows) }
      else
        { rule := "duplicates_by." ++ joinPlus spec.columns,
          status := Status.pass, count := 0, failingRows := Sample.rows [] })

/-- Violation condition of `check_date_within_days`: the parsed timestamp is
non-null and older than the cutoff. -/
def dateCondition (df : DataFrame) (col : String) (cutoff : Int)
    (row : List Cell) : Bool :=
  match castNum (cellAt df row col) with
  | some d => decide (d < cutoff)
  | none => false

/-- `check_date_within_days`: none when no rule is configured or the column
is absent; status `error` when the strict datetime parse raises (some cell
text does not parse); otherwise count values older than `now - max_days`. -/
def check_date_within_days (now : Int) (df : DataFrame) (rules : Rules)
    (maxRows : Nat) : Option CheckResult :=
  match rules.date_within_days with
  | none => none
  | some r =>
    if r.column ∈ df.cols then
      if df.rows.any (fun row => isStrCell (cellAt df row r.column)) then
        some { rule := "date_within_days", status := Status.error,
               count := 0, failingRows := Sample.rows [] }
      else
        let cutoff := now - r.max_days
        let cond := dateCondition df r.column cutoff
        let n := (df.rows.filter cond).length
        if n > 0 then
          some { rule := "date_within_days", status := Status.fail,
                 count := n,
                 failingRows := get_failing_rows df ["date_parsed"] cond maxRows }
        else
          some { rule := "date_within_days", status := Status.pass,
                 count := 0, failingRows := Sample.rows [] }
    else none

/-- Violation condition of `check_cash_leq_gross`: both sides cast to
numeric and cash exceeds gross; a row where either side fails to cast is
never a violation. -/
def cashLeqGrossCondition (df : DataFrame) (cashCol grossCol : String)
    (row : List Cell) : Bool :=
  match castNum (cellAt df row cashCol), castNum (cellAt df row grossCol) with
  | some c, some g => decide (c > g)
  | _, _ => false

/-- `check_cash_leq_gross`: none when the rule is absent or disabled or
either column is absent; otherwise count the rows violating cash ≤ gross. -/
def check_cash_leq_gross (df : DataFrame) (rules : Rules) (maxRows : Nat) :
    Option CheckResult :=
  match rules.cash_leq_gross with
  | none => none
  | some r =>
    if r.enabled = false then none
    else if r.cash_column ∉ df.cols ∨ r.gross_column ∉ df.cols then none
    else
      let cond := cashLeqGrossCondition df r.cash_column r.gross_column
      let n := (df.rows.filter cond).length
      if n > 0 then
        some { rule := "cash_leq_gross", status := Status.fail,
               count := n,
               failingRows := get_failing_rows df ["cash_numeric", "gross_numeric"] cond maxRows }
      else
        some { rule := "cash_leq_gross", status := Status.pass,
               count := 0, failingRows := Sample.rows [] }

/-- Violation condition of `check_enum_values`: the cell is non-null and its
text (upper-cased when case-insensitive) is not among the allowed values. -/
def enumCondition (df : DataFrame) (spec : EnumSpec) (row : List Cell) : Bool :=
  match cellAt df row spec.col with
  | Cell.null => false
  | c =>
    if spec.case_sensitive then !(spec.allowed.contains (cellText c))
    else !((spec.allowed.map upperStr).contains (upperStr (cellText c)))

/-- `check_enum_values`: skip absent columns; null values are exempt. -/
def check_enum_values (df : DataFrame) (rules : Rules) (maxRows : Nat) :
    List CheckResult :=
  rules.enum_values.filterMap (fun spec =>
    if spec.col ∈ df.cols then
      let cond := enumCondition df spec
      let refs := if spec.case_sensitive then [spec.col]
        else [spec.col, spec.col ++ "_upper"]
      let n := (df.rows.filter cond).length
      if n > 0 then
        some { rule := "enum_values." ++ spec.col, status := Status.fail,
               count := n, failingRows := get_failing_rows df refs cond maxRows }
      else
        some { rule := "enum_values." ++ spec.col, status := Status.pass,
               count := 0, failingRows := Sample.rows [] }
    else none)

/-- Violation condition of `check_pattern_match`: the cell is non-null and
its text does not match the anchored pattern. -/
def patternCondition (df : DataFrame) (spec : PatternSpec)
    (row : List Cell) : Bool :=
  match cellAt df row spec.col with
  | Cell.null => false
  | c => !(spec.accepts (cellText c))

/-- `check_pattern_match`: skip absent columns; null values are exempt. -/
def check_pattern_match (df : DataFrame) (rules : Rules) (maxRows : Nat) :
    List CheckResult :=
  rules.pattern_match.filterMap (fun spec =>
    if spec.col ∈ df.cols then
      let cond := patternCondition df spec
      let n := (df.rows.filter cond).length
      if n > 0 then
        some { rule := "pattern_match." ++ spec.col, status := Status.fail,
               count := n, failingRows := get_failing_rows df [spec.col] cond maxRows }
      else
        some { rule := "pattern_match." ++ spec.col, status := Status.pass,
               count := 0, failingRows := Sample.rows [] }
    else none)

/-- Violation condition of `check_not_null`: the cell is null. -/
def notNullCondition (df : DataFrame) (col : String) (row : List Cell) : Bool :=
  isNullCell (cellAt df row col)

/-- `check_not_null`: skip absent columns; count null cells. -/
def check_not_null (df : DataFrame) (rules : Rules) (maxRows : Nat) :
    List CheckResult :=
  rules.not_null.filterMap (fun col =>
    if col ∈ df.cols then
      let cond := notNullCondition df col
      let n := (df.rows.filter cond).length
      if n > 0 then
        some { rule := "not_null." ++ col, status := Status.fail,
               count := n, failingRows := get_failing_rows df [col] cond maxRows }
      else
        some { rule := "not_null." ++ col, status := Status.pass,
               count := 0, failingRows := Sample.rows [] }
    else none)

/-! ## Report aggregation and `run_rules` -/

structure Summary where
  total_checks : Nat
  passed : Nat
  failed : Nat
  errors : Nat
deriving DecidableEq

structure Report where
  schema_ok : Bool
  checks : List CheckResult
  summary : Summary
  run_error : Option String
deriving DecidableEq

/-- One iteration of the summary loop of `run_rules`: increment
`total_checks` and the counter selected by the check's status. -/
def summaryStep (s : Summary) (c : CheckResult) : Summary :=
  { total_checks := s.total_checks + 1,
    passed := s.passed + (if c.status = Status.pass then 1 else 0),
    failed := s.failed + (if c.status = Status.fail then 1 else 0),
    errors := s.errors + (if c.status = Status.error then 1 else 0) }

/-- The summary loop of `run_rules`: walk the checks once, incrementing
`total_checks` for every check and exactly one of the three status
counters. -/
def summarize (checks : List CheckResult) : Summary :=
  checks.foldl summaryStep
    { total_checks := 0, passed := 0, failed := 0, errors := 0 }

/-- `run_rules`.  The entire body runs inside one `try`; a registry-load
failure (the first statement) is caught and yields the error-shaped report
with zero checks and an `errors = 1` summary.  On the normal path the
header check runs first, sets `schema_ok`, and the remaining checks are
appended in source order. -/
def run_rules (loadResult : Except String Rules) (now : Int)
    (df : DataFrame) (actualCols : List String) (profile : Profile) : Report :=
  match loadResult with
  | Except.error e =>
    { schema_ok := false, checks := [],
      summary := { total_checks := 0, passed := 0, failed := 0, errors := 1 },
      run_error := some ("Validation failed: " ++ e) }
  | Except.ok rules =>
    let maxRows := rules.max_failing_rows_per_rule.getD 5
    let header_check := check_profile_headers actualCols profile rules
    let all_checks :=
      header_check ::
        (check_column_types df rules maxRows ++
         check_value_ranges df rules maxRows ++
         check_non_negative df rules maxRows ++
         check_duplicates_by df rules maxRows ++
         (check_date_within_days now df rules maxRows).toList ++
         (check_cash_leq_gross df rules maxRows).toList ++
         check_enum_values df rules maxRows ++
         check_pattern_match df rules maxRows ++
         check_not_null df rules maxRows)
    { schema_ok := decide (header_check.status = Status.pass),
      checks := all_checks,
      summary := summarize all_checks,
      run_error := none }

/-! ## Helper lemmas -/

/-- A `filterMap` whose function returns `none` outside a predicate ignores
the elements the predicate rejects. -/
theorem filterMap_restrict {α β : Type} (p : α → Bool) (f : α → Option β)
    (h : ∀ x, p x = false → f x = none) :
    ∀ l : List α, (l.filter p).filterMap f = l.filterMap f := by
  intro l
  induction l with
  | nil => rfl
  | cons a t ih =>
    by_cases hp : p a = true
    · simp [List.filter_cons, List.filterMap_cons, hp, ih]
    · have hp' : p a = false := by simpa using hp
      simp [List.filter_cons, List.filterMap_cons, hp', h a hp', ih]

theorem summarize_go (l : List CheckResult) (s : Summary) :
    (l.foldl summaryStep s).total_checks = s.total_checks + l.length ∧
    (l.foldl summaryStep s).passed + (l.foldl summaryStep s).failed +
        (l.foldl summaryStep s).errors
      = s.passed + s.failed + s.errors + l.length := by
  induction l generalizing s with
  | nil => simp
  | cons c t ih =>
    have h := ih (summaryStep s c)
    constructor
    · rw [List.foldl_cons, h.1]
      simp [summaryStep]; omega
    · rw [List.foldl_cons, h.2]
      rcases hs : c.status <;> simp [summaryStep, hs] <;> omega

theorem summarize_total (l : List CheckResult) :
    (summarize l).total_checks = l.length ∧
    (summarize l).total_checks
      = (summarize l).passed + (summarize l).failed + (summarize l).errors := by
  have h := summarize_go l { total_checks := 0, passed := 0, failed := 0, errors := 0 }
  unfold summarize
  refine ⟨by simpa using h.1, ?_⟩
  have h1 := h.1
  have h2 := h.2
  simp only [show ({ total_checks := 0, passed := 0, failed := 0, errors := 0 } : Summary).total_checks = 0 from rfl,
    show ({ total_checks := 0, passed := 0, failed := 0, errors := 0 } : Summary).passed = 0 from rfl,
    show ({ total_checks := 0, passed := 0, failed := 0, errors := 0 } : Summary).failed = 0 from rfl,
    show ({ total_checks := 0, passed := 0, failed := 0, errors := 0 } : Summary).errors = 0 from rfl] at h1 h2
  omega

/-! ## Claim C3: registry-load failure yields the error-shaped report -/

/-- C3: when the rule configuration cannot be loaded, `run_rules` returns a
well-formed error-shaped report: empty checks list, summary with
`errors = 1` (and all other counters zero), `schema_ok = false`, and the
load failure recorded as the report's error text — never a bare exception. -/
theorem c3_load_failure_error_report (e : String) (now : Int) (df : DataFrame)
    (actualCols : List String) (profile : Profile) :
    (run_rules (Except.error e) now df actualCols profile).checks = [] ∧
    (run_rules (Except.error e) now df actualCols profile).summary
      = { total_checks := 0, passed := 0, failed := 0, errors := 1 } ∧
    (run_rules (Except.error e) now df actualCols profile).summary.errors = 1 ∧
    (run_rules (Except.error e) now df actualCols profile).schema_ok = false ∧
    (run_rules (Except.error e) now df actualCols profile).run_error
      = some ("Validation failed: " ++ e) :=
  ⟨rfl, rfl, rfl, rfl, rfl⟩

/-! ## Claim C6: `schema_ok` is the header check's status, and nothing else -/

/-- C6: in every report of a completed run, `schema_ok` equals the
profile-header check's status being `pass`, and is therefore independent of
the dataset contents that drive every other check. -/
theorem c6_schema_ok_from_header_check (rules : Rules) (now : Int)
    (df : DataFrame) (actualCols : List String) (profile : Profile) :
    ((run_rules (Except.ok rules) now df actualCols profile).schema_ok
      = decide ((check_profile_headers actualCols profile rules).status = Status.pass)) ∧
    ((run_rules (Except.ok rules) now df actualCols profile).schema_ok = true
      ↔ (check_profile_headers actualCols profile rules).status = Status.pass) ∧
    ∀ df2 now2,
      (run_rules (Except.ok rules) now2 df2 actualCols profile).schema_ok
        = (run_rules (Except.ok rules) now df actualCols profile).schema_ok :=
  ⟨rfl, by simp [run_rules], fun _ _ => rfl⟩

/-! ## Claim C10: summary counters partition the checks -/

/-- C10: for every completed (non-fatal) run, `total_checks` equals the
length of the checks list and equals `passed + failed + errors`: every
CheckResult carries one of the three statuses and is counted exactly once. -/
theorem c10_summary_partition (rules : Rules) (now : Int) (df : DataFrame)
    (actualCols : List String) (profile : Profile) :
    (run_rules (Except.ok rules) now df actualCols profile).summary.total_checks
      = (run_rules (Except.ok rules) now df actualCols profile).checks.length ∧
    (run_rules (Except.ok rules) now df actualCols profile).summary.total_checks
      = (run_rules (Except.ok rules) now df actualCols profile).summary.passed
        + (run_rules (Except.ok rules) now df actualCols profile).summary.failed
        + (run_rules (Except.ok rules) now df actualCols profile).summary.errors := by
  have h := summarize_total (run_rules (Except.ok rules) now df actualCols profile).checks
  exact ⟨h.1, h.2⟩

/-! ## Claim C2: pipe-plus-token headers and the Wide classification -/

/-- C2 counterexample: `"aetna|silver hmo"` is a single header cell
containing the pipe separator combined with payer/plan-indicative tokens,
yet the token-qualified classifier `guess_csv_layout` returns Tall for the
one-header list — a single qualified header does not suffice. -/
theorem c2_counterexample :
    isPayerPlanPipe "aetna|silver hmo" = true ∧
    guess_csv_layout ["aetna|silver hmo"] = CsvLayout.csv_tall := by
  decide

/-- C2 amended: `guess_csv_layout` returns Wide for every header list with
at least two pipe-plus-payer/plan-token headers, regardless of the other
headers; a single such header is not decisive. -/
theorem c2_two_pipe_headers_wide (headers : List String)
    (h : 2 ≤ (headers.filter isPayerPlanPipe).length) :
    guess_csv_layout headers = CsvLayout.csv_wide := by
  unfold guess_csv_layout
  simp only []
  rw [if_pos h]

/-- C2 witness: two qualified headers force Wide. -/
theorem c2_two_pipe_headers_wide_witness :
    guess_csv_layout ["payer|a", "plan|b"] = CsvLayout.csv_wide :=
  c2_two_pipe_headers_wide ["payer|a", "plan|b"] (by decide)

/-! ## Claim C1: rules targeting absent columns -/

def c1df : DataFrame :=
  { cols := ["a"], dtypes := [DType.utf8], rows := [[Cell.str "x"]] }

def c1rules : Rules :=
  { version := "1", cms_required_headers := [], simple_required_columns := [],
    column_types := [], value_ranges := [], non_negative := [],
    duplicates_by := [{ columns := ["zz"] }],
    date_within_days := none, cash_leq_gross := none,
    enum_values := [], pattern_match := [], not_null := [],
    max_failing_rows_per_rule := none }

/-- C1 counterexample: a duplicate-key rule whose column `"zz"` is absent
from the dataset is not silently skipped: `check_duplicates_by` emits a
CheckResult with status `error`, and that result reaches the run's report. -/
theorem c1_counterexample :
    check_duplicates_by c1df c1rules 5
      = [{ rule := "duplicates_by.zz", status := Status.error, count := 0,
           failingRows := Sample.rows [] }] ∧
    ({ rule := "duplicates_by.zz", status := Status.error, count := 0,
       failingRows := Sample.rows [] } : CheckResult)
      ∈ (run_rules (Except.ok c1rules) 0 c1df ["a"] Profile.simple_csv).checks := by
  decide

/-- C1 amended: every rule kind except the duplicate-key check silently
skips a rule whose target column is absent (dropping absent-column targets
from the registry leaves the check output unchanged, and the optional date
and cash checks return no result); the duplicate-key check instead reports a
CheckResult with status `error` for a spec with any absent column. -/
theorem c1_missing_column_behavior (df : DataFrame) (rules : Rules)
    (m : Nat) (now : Int) :
    (check_column_types df
        { rules with column_types :=
            rules.column_types.filter (fun ct => decide (ct.1 ∈ df.cols)) } m
      = check_column_types df rules m) ∧
    (check_value_ranges df
        { rules with value_ranges :=
            rules.value_ranges.filter (fun s => decide (s.col ∈ df.cols)) } m
      = check_value_ranges df rules m) ∧
    (check_non_negative df
        { rules with non_negative :=
            rules.non_negative.filter (fun c => decide (c ∈ df.cols)) } m
      = check_non_negative df rules m) ∧
    (check_enum_values df
        { rules with enum_values :=
            rules.enum_values.filter (fun s => decide (s.col ∈ df.cols)) } m
      = check_enum_values df rules m) ∧
    (check_pattern_match df
        { rules with pattern_match :=
            rules.pattern_match.filter (fun s => decide (s.col ∈ df.cols)) } m
      = check_pattern_match df rules m) ∧
    (check_not_null df
        { rules with not_null :=
            rules.not_null.filter (fun c => decide (c ∈ df.cols)) } m
      = check_not_null df rules m) ∧
    (∀ r, rules.date_within_days = some r → r.column ∉ df.cols →
      check_date_within_days now df rules m = none) ∧
    (∀ r, rules.cash_leq_gross = some r →
      (r.cash_column ∉ df.cols ∨ r.gross_column ∉ df.cols) →
      check_cash_leq_gross df rules m = none) ∧
    (∀ spec, spec ∈ rules.duplicates_by → (∃ c, c ∈ spec.columns ∧ c ∉ df.cols) →
      ∃ r, r ∈ check_duplicates_by df rules m ∧
        r.rule = "duplicates_by." ++ joinPlus spec.columns ∧
        r.status = Status.error) := by
  refine ⟨?_, ?_, ?_, ?_, ?_, ?_, ?_, ?_, ?_⟩
  · exact filterMap_restrict _ _ (fun x hx => by
      simp only [decide_eq_false_iff_not] at hx
      simp [hx]) rules.column_types
  · exact filterMap_restrict _ _ (fun x hx => by
      simp only [decide_eq_false_iff_not] at hx
      simp [hx]) rules.value_ranges
  · exact filterMap_restrict _ _ (fun x hx => by
      simp only [decide_eq_false_iff_not] at hx
      simp [hx]) rules.non_negative
  · exact filterMap_restrict _ _ (fun x hx => by
      simp only [decide_eq_false_iff_not] at hx
      simp [hx]) rules.enum_values
  · exact filterMap_restrict _ _ (fun x hx => by
      simp only [decide_eq_false_iff_not] at hx
      simp [hx]) rules.pattern_match
  · exact filterMap_restrict _ _ (fun x hx => by
      simp only [decide_eq_false_iff_not] at hx
      simp [hx]) rules.not_null
  · intro r hr hcol
    simp [check_date_within_days, hr, hcol]
  · intro r hr hcols
    rcases hen : r.enabled with _ | _
    · simp [check_cash_leq_gross, hr, hen]
    · simp [check_cash_leq_gross, hr, hen, if_pos hcols]
  · intro spec hspec ⟨c, hc, hnc⟩
    refine ⟨_, List.mem_map_of_mem _ hspec, ?_⟩
    have hmem : c ∈ spec.columns.filter (fun c => decide (c ∉ df.cols)) :=
      List.mem_filter.mpr ⟨hc, by simpa using hnc⟩
    have hne : spec.columns.filter (fun c => decide (c ∉ df.cols)) ≠ [] :=
      List.ne_nil_of_mem hmem
    simp only [if_pos hne]
    exact ⟨trivial, trivial⟩

/-! ## Sniffer lemmas -/

theorem csvCellsGo_ne_nil (chars : List Char) :
    ∀ (st : Nat) (cur : List Char) (acc : List (List Char)),
      csvCellsGo chars st cur acc ≠ [] := by
  induction chars with
  | nil => intro st cur acc; simp [csvCellsGo]
  | cons c rest ih =>
    intro st cur acc
    rcases st with _ | _ | st <;> simp only [csvCellsGo] <;> split_ifs <;>
      apply ih

theorem csvCells_ne_nil (s : String) (hs : s ≠ "") : csvCells s ≠ [] := by
  unfold csvCells
  rw [if_neg hs]
  simp only [ne_eq, List.map_eq_nil_iff]
  exact csvCellsGo_ne_nil _ _ _ _

theorem lowerTrimCells_ne_nil (s : String) (hs : s ≠ "") :
    lowerTrimCells s ≠ [] := by
  unfold lowerTrimCells
  simp only [ne_eq, List.map_eq_nil_iff]
  exact csvCells_ne_nil s hs

theorem trimCells_ne_nil (s : String) (hs : s ≠ "") : trimCells s ≠ [] := by
  unfold trimCells
  simp only [ne_eq, List.map_eq_nil_iff]
  exact csvCells_ne_nil s hs

theorem ne_empty_of_trim_ne (s : String) (h : (trimStr s != "") = true) :
    s ≠ "" := by
  rintro rfl
  revert h
  decide

theorem isEmpty_false_of_ne_nil {α : Type} {l : List α} (h : l ≠ []) :
    l.isEmpty = false := by
  cases l with
  | nil => exact absurd rfl h
  | cons a t => rfl

theorem find?_range_zero (p : Nat → Bool) (n : Nat) (hn : 0 < n)
    (hp : p 0 = true) : (List.range n).find? p = some 0 := by
  obtain ⟨m, rfl⟩ := Nat.exists_eq_succ_of_ne_zero (Nat.pos_iff_ne_zero.mp hn)
  rw [List.range_succ_eq_map]
  exact List.find?_cons_of_pos _ hp

/-! ## Claim C7: failing-row samples

The sampling claim fails on the code.  For `value_ranges`, `non_negative`,
`date_within_days`, `cash_leq_gross` and the case-insensitive branch of
`enum_values`, the `condition` handed to `get_failing_rows` is built over a
derived alias column (`{col}_numeric`, `date_parsed`,
`cash_numeric`/`gross_numeric`, `{col}_upper`) that exists only in the
check's derived frame, while `get_failing_rows` receives the original `df` —
so the polars filter raises, the `except` catches, and the stored sample is
the one-element error placeholder, never the offending rows.  The violation
counts are unaffected: they come from filtering the derived frame. -/

def c7zdf : DataFrame :=
  { cols := ["p"], dtypes := [DType.utf8], rows := [[Cell.num (-3)]] }

/-- Registry with a `non_negative` rule on `p` and a configured sample cap
of 0. -/
def c7zrules : Rules :=
  { version := "1", cms_required_headers := [], simple_required_columns := [],
    column_types := [], value_ranges := [], non_negative := ["p"],
    duplicates_by := [], date_within_days := none, cash_leq_gross := none,
    enum_values := [], pattern_match := [], not_null := [],
    max_failing_rows_per_rule := some 0 }

/-- The same registry with the default sample cap (5). -/
def c7zrulesDefault : Rules :=
  { c7zrules with max_failing_rows_per_rule := none }

/-- C7: evaluation of the code at the failing input.  A failing
`non_negative` rule on column `p` (one offending row, value -3) stores the
one-element error placeholder as its failing-rows sample, because
`get_failing_rows` receives the original frame with a condition over the
absent alias `p_numeric`.  No offending rows are serialized at the default
cap, and with a configured cap of 0 the stored sample (length 1) even
exceeds the cap; the recorded count (1) is the true total either way. -/
theorem c7_placeholder_at_failing_input :
    ((run_rules (Except.ok c7zrules) 0 c7zdf ["p"] Profile.simple_csv).checks
      = [{ rule := "required_columns", status := Status.pass, count := 0,
           failingRows := Sample.rows [] },
         { rule := "non_negative.p", status := Status.fail, count := 1,
           failingRows := Sample.errorPlaceholder }]) ∧
    ¬(sampleLen Sample.errorPlaceholder
        ≤ (c7zrules.max_failing_rows_per_rule).getD 5) ∧
    ((run_rules (Except.ok c7zrulesDefault) 0 c7zdf ["p"] Profile.simple_csv).checks
      = [{ rule := "required_columns", status := Status.pass, count := 0,
           failingRows := Sample.rows [] },
         { rule := "non_negative.p", status := Status.fail, count := 1,
           failingRows := Sample.errorPlaceholder }]) := by
  decide

/-! ## Claim C5: cash ≤ gross counting -/

def c5df : DataFrame :=
  { cols := ["cash_price", "gross_price"], dtypes := [DType.utf8, DType.utf8],
    rows := [[Cell.num 50, Cell.num 40], [Cell.num 10, Cell.num 20]] }

/-- The same two rows with two extra rows on which one side fails to cast. -/
def c5dfMixed : DataFrame :=
  { cols := ["cash_price", "gross_price"], dtypes := [DType.utf8, DType.utf8],
    rows := [[Cell.num 50, Cell.num 40], [Cell.num 10, Cell.num 20],
             [Cell.str "n/a", Cell.num 5], [Cell.num 99, Cell.null]] }

def c5rules : Rules :=
  { version := "1", cms_required_headers := [], simple_required_columns := [],
    column_types := [], value_ranges := [], non_negative := [],
    duplicates_by := [], date_within_days := none,
    cash_leq_gross := some { enabled := true, cash_column := "cash_price",
                             gross_column := "gross_price" },
    enum_values := [], pattern_match := [], not_null := [],
    max_failing_rows_per_rule := none }

/-- C5: the cash ≤ gross check counts as violations exactly the rows where
both the cash and gross cells cast to numeric and cash exceeds gross —
`cashLeqGrossCondition` skips rows where either side fails to cast — and the
status is `fail` exactly when that count is positive.  Concretely, on the
rows `[(cash=50, gross=40), (cash=10, gross=20)]` it reports `fail` with
exactly one violation, and appending rows with a non-castable side leaves
the count unchanged.  (The stored failing-rows sample is the error
placeholder: the sampling condition references the aliases
`cash_numeric`/`gross_numeric`, absent from the frame handed to
`get_failing_rows` — see the C7 analysis above.) -/
theorem c5_cash_leq_gross_semantics (df : DataFrame) (rules : Rules) (m : Nat) :
    (∀ cr, rules.cash_leq_gross = some cr → cr.enabled = true →
      cr.cash_column ∈ df.cols → cr.gross_column ∈ df.cols →
      ∃ r, check_cash_leq_gross df rules m = some r ∧
        r.count = (df.rows.filter
          (cashLeqGrossCondition df cr.cash_column cr.gross_column)).length ∧
        (r.status = Status.fail ↔ 0 < (df.rows.filter
          (cashLeqGrossCondition df cr.cash_column cr.gross_column)).length)) ∧
    check_cash_leq_gross c5df c5rules 5
      = some { rule := "cash_leq_gross", status := Status.fail, count := 1,
               failingRows := Sample.errorPlaceholder } ∧
    check_cash_leq_gross c5dfMixed c5rules 5
      = some { rule := "cash_leq_gross", status := Status.fail, count := 1,
               failingRows := Sample.errorPlaceholder } := by
  refine ⟨?_, by decide, by decide⟩
  intro cr hcr hen hc hg
  unfold check_cash_leq_gross
  simp only [hcr]
  rw [if_neg (by simp [hen])]
  rw [if_neg (by simp [hc, hg])]
  by_cases h0 : (df.rows.filter
      (cashLeqGrossCondition df cr.cash_column cr.gross_column)).length > 0
  · rw [if_pos h0]
    exact ⟨_, rfl, rfl, iff_of_true rfl h0⟩
  · rw [if_neg h0]
    exact ⟨_, rfl, (Nat.eq_zero_of_not_pos h0).symm,
      iff_of_false (by simp) (by omega)⟩

/-- C5 witness: the general clause instantiated on the concrete two-row
dataset. -/
theorem c5_cash_leq_gross_semantics_witness :
    ∃ r, check_cash_leq_gross c5df c5rules 5 = some r ∧
      r.count = (c5df.rows.filter
        (cashLeqGrossCondition c5df "cash_price" "gross_price")).length ∧
      (r.status = Status.fail ↔ 0 < (c5df.rows.filter
        (cashLeqGrossCondition c5df "cash_price" "gross_price")).length) :=
  (c5_cash_leq_gross_semantics c5df c5rules 5).1
    { enabled := true, cash_column := "cash_price", gross_column := "gross_price" }
    rfl rfl (by decide) (by decide)

/-! ## Claim C8: fallback of `_try_parse_preamble` -/

/-- C8 counterexample: on the two-line input `[",", "code,description"]` the
scan window is empty (so neither heuristic matches), the first line `","` is
non-empty, yet the fallback designates line 1 — not the first non-empty
line — as the header row, because line 0 has no non-blank cell. -/
theorem c8_counterexample :
    ((candidateRange [",", "code,description"] 20).all
      (fun i => !(cmsAccept [] [",", "code,description"] i) &&
        !(hospAccept [",", "code,description"] i)) = true) ∧
    ("," ≠ "") ∧
    (try_parse_preamble [",", "code,description"] [] 20).1 = 1 := by
  decide

/-- C8 amended: `_try_parse_preamble` is total, and whenever neither
acceptance heuristic matches within the scan window it falls back to
designating the first line containing at least one non-blank cell as the
header row (index 0 if no such line exists), with an empty preamble. -/
theorem c8_fallback_first_data_line (lines wanted : List String) (maxScan : Nat)
    (h : (candidateRange lines maxScan).all
      (fun i => !(cmsAccept wanted lines i) && !(hospAccept lines i)) = true) :
    try_parse_preamble lines wanted maxScan
      = ((lines.findIdx? hasDataCell).getD 0, [], [], []) := by
  have hall := List.all_eq_true.mp h
  have hcms : (candidateRange lines maxScan).find? (cmsAccept wanted lines) = none := by
    rw [List.find?_eq_none]
    intro i hi
    have := hall i hi
    simp only [Bool.and_eq_true, Bool.not_eq_true'] at this
    simp [this.1]
  have hhosp : (candidateRange lines maxScan).find? (hospAccept lines) = none := by
    rw [List.find?_eq_none]
    intro i hi
    have := hall i hi
    simp only [Bool.and_eq_true, Bool.not_eq_true'] at this
    simp [this.2]
  unfold try_parse_preamble
  simp only [hcms, hhosp]
  cases hidx : lines.findIdx? hasDataCell <;> simp [hidx]

/-- C8 witness: a file whose first line holds data falls back to index 0. -/
theorem c8_fallback_first_data_line_witness :
    try_parse_preamble ["a,b"] [] 20
      = (((["a,b"] : List String).findIdx? hasDataCell).getD 0, [], [], []) :=
  c8_fallback_first_data_line ["a,b"] [] 20 (by decide)

/-! ## Claim C9: result when no preamble is recognized -/

/-- C9 counterexample: on `[",", "billing_code"]` no heuristic can match
(the scan window is empty), yet the sniffer returns header row index 1, not
0 — the fallback skips the first line because it has no non-blank cell. -/
theorem c9_counterexample :
    ((candidateRange ([",", "billing_code"].filter
        (fun ln => trimStr ln != "")) 30).all
      (fun i => !(cmsAccept [] ([",", "billing_code"].filter
          (fun ln => trimStr ln != "")) i) &&
        !(hospAccept ([",", "billing_code"].filter
          (fun ln => trimStr ln != "")) i)) = true) ∧
    find_preamble_and_header_row [",", "billing_code"] [] 30
      = (1, [], ["billing_code"]) := by
  decide

/-- C9 amended: when neither heuristic matches any candidate row,
`find_preamble_and_header_row` returns an empty preamble map together with
the index of the first non-blank-filtered line that contains a non-blank
cell (and index 0 when no line does) — which is 0 exactly when the first
non-empty line has a non-blank cell. -/
theorem c9_no_preamble_fallback (rawLines wanted : List String) (maxScan : Nat)
    (h : (candidateRange (rawLines.filter (fun ln => trimStr ln != "")) maxScan).all
      (fun i => !(cmsAccept wanted (rawLines.filter (fun ln => trimStr ln != "")) i) &&
        !(hospAccept (rawLines.filter (fun ln => trimStr ln != "")) i)) = true) :
    find_preamble_and_header_row rawLines wanted maxScan
      = match (rawLines.filter (fun ln => trimStr ln != "")).findIdx? hasDataCell with
        | some j => (j, [],
            (trimCells ((rawLines.filter (fun ln => trimStr ln != "")).getD j "")).map lowerStr)
        | none => (0, [], []) := by
  have hall := List.all_eq_true.mp h
  have hcms : (candidateRange (rawLines.filter (fun ln => trimStr ln != "")) maxScan).find?
      (cmsAccept wanted (rawLines.filter (fun ln => trimStr ln != ""))) = none := by
    rw [List.find?_eq_none]
    intro i hi
    have := hall i hi
    simp only [Bool.and_eq_true, Bool.not_eq_true'] at this
    simp [this.1]
  have hhosp : (candidateRange (rawLines.filter (fun ln => trimStr ln != "")) maxScan).find?
      (hospAccept (rawLines.filter (fun ln => trimStr ln != ""))) = none := by
    rw [List.find?_eq_none]
    intro i hi
    have := hall i hi
    simp only [Bool.and_eq_true, Bool.not_eq_true'] at this
    simp [this.2]
  unfold find_preamble_and_header_row
  simp only [hcms, hhosp]

/-- C9 witness: with no recognizable preamble and a data-bearing first line,
the result is header row 0 and an empty preamble. -/
theorem c9_no_preamble_fallback_witness :
    find_preamble_and_header_row ["x,y"] [] 30 = (0, [], ["x", "y"]) := by
  have h := c9_no_preamble_fallback ["x,y"] [] 30 (by decide)
  rw [h]
  decide

/-! ## Claim C4: label/value/header preamble recognized at index 2 -/

/-- C4: for every file whose non-empty lines start with a label row, a value
row and a header row, where label and value rows have equal cell counts and
the label row holds at least two recognized required labels, the sniffer
returns header row index 2, the preamble pairing each non-empty label with
its corresponding non-empty value, and the header row's cells. -/
theorem c4_preamble_header_at_two (rawLines wanted : List String)
    (l0 l1 l2 : String) (rest : List String)
    (hnl : rawLines.filter (fun ln => trimStr ln != "") = l0 :: l1 :: l2 :: rest)
    (hlen : (lowerTrimCells l0).length = (trimCells l1).length)
    (hhits : 2 ≤ recognizedHits wanted (lowerTrimCells l0)) :
    find_preamble_and_header_row rawLines wanted 30
      = (2, buildMeta (lowerTrimCells l0) (trimCells l1), lowerTrimCells l2) := by
  have hm0 : l0 ∈ rawLines.filter (fun ln => trimStr ln != "") := by
    rw [hnl]; exact List.mem_cons_self _ _
  have hm1 : l1 ∈ rawLines.filter (fun ln => trimStr ln != "") := by
    rw [hnl]; exact List.mem_cons_of_mem _ (List.mem_cons_self _ _)
  have hm2 : l2 ∈ rawLines.filter (fun ln => trimStr ln != "") := by
    rw [hnl]
    exact List.mem_cons_of_mem _ (List.mem_cons_of_mem _ (List.mem_cons_self _ _))
  have hl0 : l0 ≠ "" := ne_empty_of_trim_ne l0 (List.mem_filter.mp hm0).2
  have hl1 : l1 ≠ "" := ne_empty_of_trim_ne l1 (List.mem_filter.mp hm1).2
  have hl2 : l2 ≠ "" := ne_empty_of_trim_ne l2 (List.mem_filter.mp hm2).2
  have haccept : cmsAccept wanted (l0 :: l1 :: l2 :: rest) 0 = true := by
    have h0 : (l0 :: l1 :: l2 :: rest).get? 0 = some l0 := rfl
    have h1 : (l0 :: l1 :: l2 :: rest).get? (0+1) = some l1 := rfl
    have h2 : (l0 :: l1 :: l2 :: rest).get? (0+2) = some l2 := rfl
    simp only [cmsAccept, h0, h1, h2, Bool.and_eq_true, Bool.not_eq_true',
      decide_eq_true_eq]
    refine ⟨⟨⟨⟨?_, ?_⟩, ?_⟩, ?_⟩, ?_⟩
    · exact isEmpty_false_of_ne_nil (lowerTrimCells_ne_nil l0 hl0)
    · exact isEmpty_false_of_ne_nil (trimCells_ne_nil l1 hl1)
    · exact isEmpty_false_of_ne_nil (lowerTrimCells_ne_nil l2 hl2)
    · exact hhits
    · exact hlen
  have hrange : candidateRange (l0 :: l1 :: l2 :: rest) 30
      = List.range (min 30 (rest.length + 1)) := by
    unfold candidateRange
    congr 1
  have hfind : (candidateRange (l0 :: l1 :: l2 :: rest) 30).find?
      (cmsAccept wanted (l0 :: l1 :: l2 :: rest)) = some 0 := by
    rw [hrange]
    exact find?_range_zero _ _ (Nat.lt_min.mpr ⟨by norm_num, Nat.succ_pos _⟩)
      haccept
  unfold find_preamble_and_header_row
  rw [hnl]
  simp only [hfind]
  rfl

/-- C4 witness: a concrete CMS-style file with labels `mrf date` and
`version` recognized in row 0 is sniffed with header row 2 and the paired
preamble. -/
theorem c4_preamble_header_at_two_witness :
    find_preamble_and_header_row
      ["mrf date,version", "2024-01-01,2.0", "code,description", "1,x"]
      ["MRF Date", "Version"] 30
      = (2, [("mrf date", "2024-01-01"), ("version", "2.0")],
          ["code", "description"]) := by
  have h := c4_preamble_header_at_two
    ["mrf date,version", "2024-01-01,2.0", "code,description", "1,x"]
    ["MRF Date", "Version"]
    "mrf date,version" "2024-01-01,2.0" "code,description" ["1,x"]
    (by decide) (by decide) (by decide)
  rw [h]
  decide

/-- C1 witness: concrete instance of the amended behavior — a configured
date rule on an absent column produces no result. -/
theorem c1_missing_column_behavior_witness :
    check_date_within_days 0 c1df
      { c1rules with date_within_days := some { column := "dd", max_days := 3 } } 5
      = none :=
  (c1_missing_column_behavior c1df
      { c1rules with date_within_days := some { column := "dd", max_days := 3 } }
      5 0).2.2.2.2.2.2.1
    { column := "dd", max_days := 3 } rfl (by decide)

end ClearCare
